import Mathlib

/-!
Verification of the actix_htpasswd access-control core.

The development shallowly embeds the crate's credential pipeline:
`HtpasswdDatabase` (htpasswd parsing, `is_valid`, `add`),
`AuthData::from_request` (Basic-Auth header parsing) and
`AuthControl::from_request` (the authentication + authorization gate),
together with executable models of the external primitives the code calls
(SHA-1, standard base64 decoding, UTF-8 encoding and lossy decoding,
`HeaderValue::to_str`).  Bytes are `Nat` values below 256; 32-bit machine
words are `Nat` values reduced modulo 2 ^ 32.
-/

set_option maxRecDepth 1000000

/-- Truncation to a 32-bit machine word. -/
def w32 (n : Nat) : Nat := n % 4294967296

/-- 32-bit left rotation (the argument is assumed below 2 ^ 32). -/
def rotl (k n : Nat) : Nat := w32 (Nat.lor (n <<< k) (n >>> (32 - k)))

/-- Big-endian bytes of a 32-bit word. -/
def be32 (n : Nat) : List Nat :=
  [(n >>> 24) % 256, (n >>> 16) % 256, (n >>> 8) % 256, n % 256]

/-- Big-endian bytes of a 64-bit word. -/
def be64 (n : Nat) : List Nat :=
  [(n >>> 56) % 256, (n >>> 48) % 256, (n >>> 40) % 256, (n >>> 32) % 256,
   (n >>> 24) % 256, (n >>> 16) % 256, (n >>> 8) % 256, n % 256]

/-- SHA-1 message padding: a 0x80 byte, zeros up to 56 mod 64, then the
bit length as a big-endian 64-bit integer. -/
def sha1Pad (msg : List Nat) : List Nat :=
  msg ++ [128] ++ List.replicate ((64 + 56 - ((msg.length + 1) % 64)) % 64) 0
      ++ be64 (8 * msg.length)

/-- Group bytes into big-endian 32-bit words. -/
def toWords : List Nat → List Nat
  | b1 :: b2 :: b3 :: b4 :: rest =>
    ((((((b1 <<< 8) + b2) <<< 8) + b3) <<< 8) + b4) :: toWords rest
  | _ => []

/-- Extend the 16 chunk words to the 80-word SHA-1 message schedule
(`n` is the number of words still to append). -/
def sha1Schedule : Nat → List Nat → List Nat
  | 0, w => w
  | n + 1, w =>
    let i := w.length
    sha1Schedule n (w ++ [rotl 1 (Nat.xor (Nat.xor (w.getD (i - 3) 0) (w.getD (i - 8) 0))
      (Nat.xor (w.getD (i - 14) 0) (w.getD (i - 16) 0)))])

/-- The SHA-1 round function, per 20-round block. -/
def sha1F (i b c d : Nat) : Nat :=
  if i < 20 then Nat.lor (Nat.land b c) (Nat.land (Nat.xor b 4294967295) d)
  else if i < 40 then Nat.xor (Nat.xor b c) d
  else if i < 60 then Nat.lor (Nat.lor (Nat.land b c) (Nat.land b d)) (Nat.land c d)
  else Nat.xor (Nat.xor b c) d

/-- The SHA-1 round constants, per 20-round block. -/
def sha1K (i : Nat) : Nat :=
  if i < 20 then 1518500249
  else if i < 40 then 1859775393
  else if i < 60 then 2400959708
  else 3395469782

/-- Run the 80 SHA-1 rounds over the message schedule. -/
def sha1Rounds : Nat → List Nat → Nat × Nat × Nat × Nat × Nat → Nat × Nat × Nat × Nat × Nat
  | _, [], st => st
  | i, wi :: ws, (a, b, c, d, e) =>
    sha1Rounds (i + 1) ws (w32 (rotl 5 a + sha1F i b c d + e + sha1K i + wi), a, rotl 30 b, c, d)

/-- Compress one 64-byte chunk into the running hash state. -/
def sha1Chunk (chunk : List Nat) (h : Nat × Nat × Nat × Nat × Nat) :
    Nat × Nat × Nat × Nat × Nat :=
  match h, sha1Rounds 0 (sha1Schedule 64 (toWords chunk)) h with
  | (h0, h1, h2, h3, h4), (a, b, c, d, e) =>
    (w32 (h0 + a), w32 (h1 + b), w32 (h2 + c), w32 (h3 + d), w32 (h4 + e))

/-- Fold the compression function over all 64-byte chunks (fuel-driven;
the fuel is instantiated with the padded length, which always suffices). -/
def sha1Chunks : Nat → List Nat → Nat × Nat × Nat × Nat × Nat → Nat × Nat × Nat × Nat × Nat
  | _, [], h => h
  | 0, _, h => h
  | fuel + 1, bytes, h => sha1Chunks fuel (bytes.drop 64) (sha1Chunk (bytes.take 64) h)

/-- SHA-1 of a byte sequence, as its 20-byte digest.  Models the `sha1`
crate used by `HtpasswdDatabase::is_valid`. -/
def sha1Bytes (msg : List Nat) : List Nat :=
  let padded := sha1Pad msg
  match sha1Chunks padded.length padded (1732584193, 4023233417, 2562383102, 271733878, 3285377520) with
  | (h0, h1, h2, h3, h4) => be32 h0 ++ be32 h1 ++ be32 h2 ++ be32 h3 ++ be32 h4

/-- UTF-8 encoding of one scalar value. -/
def utf8EncodeChar (c : Char) : List Nat :=
  let n := c.toNat
  if n < 128 then [n]
  else if n < 2048 then [192 + (n >>> 6), 128 + (n % 64)]
  else if n < 65536 then [224 + (n >>> 12), 128 + ((n >>> 6) % 64), 128 + (n % 64)]
  else [240 + (n >>> 18), 128 + ((n >>> 12) % 64), 128 + ((n >>> 6) % 64), 128 + (n % 64)]

/-- UTF-8 bytes of a string (what Rust hashes or base64-encodes for a `&str`). -/
def utf8Encode (s : String) : List Nat := (s.data.map utf8EncodeChar).flatten

/-- The U+FFFD replacement character. -/
def replacementChar : Char := Char.ofNat 65533

/-- Is a byte a UTF-8 continuation byte? -/
def isCont (b : Nat) : Bool := decide (128 ≤ b ∧ b < 192)

/-- Admissible second byte of a three-byte UTF-8 sequence headed by `b`
(excluding overlong forms and surrogates, as Rust does). -/
def utf8Tail3Ok (b b2 : Nat) : Bool :=
  (decide (b = 224) && decide (160 ≤ b2 ∧ b2 ≤ 191)) ||
  (decide (225 ≤ b ∧ b ≤ 236) && isCont b2) ||
  (decide (b = 237) && decide (128 ≤ b2 ∧ b2 ≤ 159)) ||
  (decide (238 ≤ b ∧ b ≤ 239) && isCont b2)

/-- Admissible second byte of a four-byte UTF-8 sequence headed by `b`. -/
def utf8Tail4Ok (b b2 : Nat) : Bool :=
  (decide (b = 240) && decide (144 ≤ b2 ∧ b2 ≤ 191)) ||
  (decide (241 ≤ b ∧ b ≤ 243) && isCont b2) ||
  (decide (b = 244) && decide (128 ≤ b2 ∧ b2 ≤ 143))

/-- Fuel-driven lossy UTF-8 decoding: well-formed sequences decode to their
scalar value, ill-formed bytes become U+FFFD.  Models
`String::from_utf8_lossy` (on ill-formed input the number of replacement
characters may differ from Rust's maximal-subpart rule; well-formed input
decodes identically). -/
def utf8DecodeLossyAux : Nat → List Nat → List Char
  | _, [] => []
  | 0, _ => []
  | fuel + 1, b :: bs =>
    if b < 128 then Char.ofNat b :: utf8DecodeLossyAux fuel bs
    else if 194 ≤ b ∧ b ≤ 223 then
      match bs with
      | b2 :: bs2 =>
        if isCont b2 then
          Char.ofNat (((b - 192) <<< 6) + (b2 - 128)) :: utf8DecodeLossyAux fuel bs2
        else replacementChar :: utf8DecodeLossyAux fuel bs
      | [] => [replacementChar]
    else if 224 ≤ b ∧ b ≤ 239 then
      match bs with
      | b2 :: b3 :: bs3 =>
        if utf8Tail3Ok b b2 && isCont b3 then
          Char.ofNat (((b - 224) <<< 12) + ((b2 - 128) <<< 6) + (b3 - 128)) ::
            utf8DecodeLossyAux fuel bs3
        else replacementChar :: utf8DecodeLossyAux fuel bs
      | _ => replacementChar :: utf8DecodeLossyAux fuel bs
    else if 240 ≤ b ∧ b ≤ 244 then
      match bs with
      | b2 :: b3 :: b4 :: bs4 =>
        if utf8Tail4Ok b b2 && isCont b3 && isCont b4 then
          Char.ofNat (((b - 240) <<< 18) + ((b2 - 128) <<< 12) + ((b3 - 128) <<< 6) + (b4 - 128)) ::
            utf8DecodeLossyAux fuel bs4
        else replacementChar :: utf8DecodeLossyAux fuel bs
      | _ => replacementChar :: utf8DecodeLossyAux fuel bs
    else replacementChar :: utf8DecodeLossyAux fuel bs

/-- Lossy UTF-8 decoding of a byte sequence. -/
def utf8DecodeLossy (bs : List Nat) : List Char := utf8DecodeLossyAux bs.length bs

/-- Value of one character in the standard base64 alphabet. -/
def b64Val (c : Char) : Option Nat :=
  let n := c.toNat
  if 65 ≤ n ∧ n ≤ 90 then some (n - 65)
  else if 97 ≤ n ∧ n ≤ 122 then some (n - 71)
  else if 48 ≤ n ∧ n ≤ 57 then some (n + 4)
  else if n = 43 then some 62
  else if n = 47 then some 63
  else none

/-- Translate every base64 character, failing on the first invalid one. -/
def b64Vals : List Char → Option (List Nat)
  | [] => some []
  | c :: cs =>
    match b64Val c, b64Vals cs with
    | some v, some vs => some (v :: vs)
    | _, _ => none

/-- Reassemble bytes from base64 sextet values; a trailing group of two or
three sextets yields one or two bytes, and its leftover bits must be zero. -/
def b64Chunks : List Nat → Option (List Nat)
  | [] => some []
  | [_] => none
  | [a, b] => if b % 16 = 0 then some [(a <<< 2) + (b >>> 4)] else none
  | [a, b, c] =>
    if c % 4 = 0 then some [(a <<< 2) + (b >>> 4), ((b % 16) <<< 4) + (c >>> 2)] else none
  | a :: b :: c :: d :: rest =>
    match b64Chunks rest with
    | none => none
    | some bs =>
      some (((a <<< 2) + (b >>> 4)) :: (((b % 16) <<< 4) + (c >>> 2)) :: (((c % 4) <<< 6) + d) :: bs)

/-- Standard base64 decoding with optional trailing padding.  Models
`base64::decode`: `=` may appear only as trailing padding completing a
four-character group, every other character must belong to the standard
alphabet, and leftover bits must be zero. -/
def base64Decode (cs : List Char) : Option (List Nat) :=
  let content := (cs.reverse.dropWhile (fun c => c == '=')).reverse
  let padLen := cs.length - content.length
  if content.any (fun c => c == '=') then none
  else if 2 < padLen then none
  else if 0 < padLen ∧ cs.length % 4 ≠ 0 then none
  else
    match b64Vals content with
    | none => none
    | some vals => b64Chunks vals

/-- Does `pre` occur at the head of `l`? -/
def startsWith : List Char → List Char → Bool
  | [], _ => true
  | _ :: _, [] => false
  | p :: ps, c :: cs => p == c && startsWith ps cs

/-- Fuel-driven splitting on every non-overlapping occurrence of `sep`,
left to right (`cur` accumulates the current piece, reversed). -/
def splitOnSubAux (sep : List Char) : Nat → List Char → List Char → List (List Char)
  | _, [], cur => [cur.reverse]
  | 0, cs, cur => [cur.reverse ++ cs]
  | fuel + 1, c :: rest, cur =>
    if startsWith sep (c :: rest) then
      cur.reverse :: splitOnSubAux sep fuel ((c :: rest).drop sep.length) []
    else splitOnSubAux sep fuel rest (c :: cur)

/-- Split on every non-overlapping occurrence of a non-empty separator;
models Rust's `str::split` with a string pattern. -/
def splitOnSub (sep cs : List Char) : List (List Char) := splitOnSubAux sep cs.length cs []

/-- Split at the first occurrence of a separator character, if any. -/
def splitFirst (sep : Char) : List Char → Option (List Char × List Char)
  | [] => none
  | c :: cs =>
    if c == sep then some ([], cs)
    else
      match splitFirst sep cs with
      | none => none
      | some (a, b) => some (c :: a, b)

/-- Rust's `str::splitn(2, sep)`, collected: the whole text when the
separator is absent, otherwise the part before and the part after the
first occurrence.  Never empty. -/
def splitn2 (sep : Char) (cs : List Char) : List (List Char) :=
  match splitFirst sep cs with
  | none => [cs]
  | some (a, b) => [a, b]

/-- Whitespace trimming at both ends; models Rust's `str::trim` (on the
ASCII whitespace the htpasswd format uses). -/
def rustTrim (cs : List Char) : List Char :=
  ((cs.dropWhile Char.isWhitespace).reverse.dropWhile Char.isWhitespace).reverse

/-- The error taxonomy of `src/error.rs`.  The two file-I/O constructors
carry a path and an `io::Error` in the source; the parse errors carry the
fields shown (the path string attached to the line errors is dropped, as it
is the same constant for one build). -/
inductive Error where
  | HeaderNotLongEnough
  | CannotConvertHeaderToString
  | UnsupportedScheme (scheme : String)
  | MissingScheme
  | MalformedCredentials
  | CannotExtractUsername
  | CannotExtractPassword
  | EmptyPassword
  | CannotOpenHtpasswdFile
  | CannotReadHtpasswdFile
  | MalformedHtpasswdLine (line : Nat)
  | InvalidPasswordString (line : Nat)
  | DuplicateUser (user : String)
deriving DecidableEq

/-- The credentials extracted from a Basic-Auth header (`src/auth_data.rs`). -/
structure AuthData where
  user : String
  password : String
deriving DecidableEq

/-- Model of `HeaderValue::to_str` of the `http` crate: succeeds exactly when every
byte is visible ASCII (32–126) or horizontal tab, in which case the bytes
are the characters. -/
def headerToStr (bytes : List Nat) : Option (List Char) :=
  if bytes.all (fun b => decide ((32 ≤ b ∧ b < 127) ∨ b = 9)) then
    some (bytes.map Char.ofNat)
  else none

/-- Embedding of `AuthData::from_request`: the Authorization header is modelled as
`none` (absent) or `some bytes` (its raw value).  Mirrors the source:
length check, text conversion, `splitn(2, ' ')` for the scheme, base64
decoding, lossy UTF-8 decoding, `splitn(2, ':')` for user and password,
and the empty-password rejection. -/
def AuthData.from_request (header : Option (List Nat)) : Except Error (Option AuthData) :=
  match header with
  | none => Except.ok none
  | some header =>
    if header.length < 7 then Except.error Error.HeaderNotLongEnough
    else
      match headerToStr header with
      | none => Except.error Error.CannotConvertHeaderToString
      | some text =>
        match splitn2 ' ' text with
        | [] => Except.error Error.MissingScheme
        | scheme :: parts_rest =>
          if scheme ≠ "Basic".data then Except.error (Error.UnsupportedScheme (String.mk scheme))
          else
            match parts_rest with
            | [] => Except.error Error.MalformedCredentials
            | encoded :: _ =>
              match base64Decode encoded with
              | none => Except.error Error.MalformedCredentials
              | some raw_user_password =>
                match splitn2 ':' (utf8DecodeLossy raw_user_password) with
                | [] => Except.error Error.CannotExtractUsername
                | user :: up_rest =>
                  match up_rest with
                  | [] => Except.error Error.CannotExtractPassword
                  | password :: _ =>
                    if password.isEmpty then Except.error Error.EmptyPassword
                    else Except.ok (some ⟨String.mk user, String.mk password⟩)

/-- The credential store (`src/htpasswd_database.rs`): the `HashMap` is
modelled as an association list with unique keys. -/
structure HtpasswdDatabase where
  registered_users : List (String × List Nat)
deriving DecidableEq

/-- Embedding of `HtpasswdDatabase::new`. -/
def HtpasswdDatabase.new : HtpasswdDatabase := ⟨[]⟩

/-- Embedding of `HtpasswdDatabase::add`: rejects an already-registered username with
`DuplicateUser`, otherwise records the digest. -/
def HtpasswdDatabase.add (db : HtpasswdDatabase) (user : String) (sha1_password : List Nat) :
    Except Error HtpasswdDatabase :=
  if (db.registered_users.lookup user).isSome then
    Except.error (Error.DuplicateUser user)
  else Except.ok ⟨db.registered_users ++ [(user, sha1_password)]⟩

/-- Embedding of `HtpasswdDatabase::is_valid`: false for an unregistered username,
otherwise exact equality of the SHA-1 digest of the supplied password's
bytes against the stored digest. -/
def HtpasswdDatabase.is_valid (db : HtpasswdDatabase) (auth_data : AuthData) : Bool :=
  if !(db.registered_users.lookup auth_data.user).isSome then false
  else
    let sha1_password := sha1Bytes (utf8Encode auth_data.password)
    sha1_password == (db.registered_users.lookup auth_data.user).getD []

/-- The `:` + `SHA` scheme marker (`":\x7bSHA\x7d"`) on which each
htpasswd line is split. -/
def htpasswdSep : List Char := [':', Char.ofNat 123, 'S', 'H', 'A', Char.ofNat 125]

/-- Build one htpasswd line from a username and a base64 digest text
(witness helper gluing the separator in). -/
def hline (user b64 : String) : String := String.mk (user.data ++ htpasswdSep ++ b64.data)

/-- One iteration of the `TryFrom` loop at 0-based line index `i`:
skip a blank line, otherwise split on the scheme marker, base64-decode the
digest, reject a duplicate username, and record the entry. -/
def processLine (i : Nat) (owned_line : String) (registered_users : List (String × List Nat)) :
    Except Error (List (String × List Nat)) :=
  if (rustTrim owned_line.data).isEmpty then Except.ok registered_users
  else
    match splitOnSub htpasswdSep (rustTrim owned_line.data) with
    | [user, base64_sha1_password] =>
      match base64Decode base64_sha1_password with
      | none => Except.error (Error.InvalidPasswordString i)
      | some sha1_password =>
        if (registered_users.lookup (String.mk user)).isSome then
          Except.error (Error.DuplicateUser (String.mk user))
        else Except.ok (registered_users ++ [(String.mk user, sha1_password)])
    | _ => Except.error (Error.MalformedHtpasswdLine i)

/-- The enumerated loop of `TryFrom<&Path> for HtpasswdDatabase`, over the
file's lines: fail-fast on the first failing line. -/
def processLines : Nat → List String → List (String × List Nat) →
    Except Error (List (String × List Nat))
  | _, [], registered_users => Except.ok registered_users
  | i, owned_line :: rest, registered_users =>
    match processLine i owned_line registered_users with
    | Except.error e => Except.error e
    | Except.ok updated => processLines (i + 1) rest updated

/-- Embedding of `TryFrom<&Path> for HtpasswdDatabase`, with the file's contents given
as its list of lines (the file-system read is outside the embedding). -/
def HtpasswdDatabase.tryFrom (lines : List String) : Except Error HtpasswdDatabase :=
  match processLines 0 lines [] with
  | Except.error e => Except.error e
  | Except.ok registered_users => Except.ok ⟨registered_users⟩

/-- The authentication result (`src/auth_control.rs`). -/
inductive AuthResult where
  | Anonymous
  | LoggedUser (user : String)
deriving DecidableEq

/-- Embedding of `Anyone::allows` (`src/user_control_policy.rs`): always true. -/
def Anyone.allows (_auth_result : AuthResult) : Bool := true

/-- Embedding of `AnyLoggedUser::allows`: true exactly on `LoggedUser`. -/
def AnyLoggedUser.allows (auth_result : AuthResult) : Bool :=
  match auth_result with
  | AuthResult.Anonymous => false
  | AuthResult.LoggedUser _ => true

/-- The observable outcome of `AuthControl::from_request`: `allowed` is the
`ok(AuthControl)` case; the two `unauthorized` constructors are the
`ErrorUnauthorized` returns for failed credentials and for a malformed
header respectively; `forbidden` is the `ErrorForbidden` return of the
policy check. -/
inductive GateOutcome where
  | allowed (auth_result : AuthResult)
  | unauthorizedInvalidCredentials
  | unauthorizedMalformedHeader (e : Error)
  | forbidden
deriving DecidableEq

/-- Embedding of `AuthControl::<U>::from_request`: authentication (header parsing plus
store lookup, with early `ErrorUnauthorized` returns), then the `U::allows`
policy check.  The policy type parameter `U` is the `allows` predicate. -/
def AuthControl.from_request (allows : AuthResult → Bool) (db : HtpasswdDatabase)
    (header : Option (List Nat)) : GateOutcome :=
  let step : Except GateOutcome AuthResult :=
    match AuthData.from_request header with
    | Except.ok (some auth_data) =>
      if db.is_valid auth_data then Except.ok (AuthResult.LoggedUser auth_data.user)
      else Except.error GateOutcome.unauthorizedInvalidCredentials
    | Except.ok none => Except.ok AuthResult.Anonymous
    | Except.error e => Except.error (GateOutcome.unauthorizedMalformedHeader e)
  match step with
  | Except.error outcome => outcome
  | Except.ok auth_result =>
    if allows auth_result then GateOutcome.allowed auth_result
    else GateOutcome.forbidden

instance {ε α : Type} [DecidableEq ε] [DecidableEq α] : DecidableEq (Except ε α) := fun x y =>
  match x, y with
  | Except.ok a, Except.ok b =>
    if h : a = b then Decidable.isTrue (by rw [h])
    else Decidable.isFalse (by intro hc; cases hc; exact h rfl)
  | Except.error a, Except.error b =>
    if h : a = b then Decidable.isTrue (by rw [h])
    else Decidable.isFalse (by intro hc; cases hc; exact h rfl)
  | Except.ok _, Except.error _ => Decidable.isFalse (by intro hc; cases hc)
  | Except.error _, Except.ok _ => Decidable.isFalse (by intro hc; cases hc)

/-- A one-user store registering `bob` with the SHA-1 digest of
`hunter2` (concrete instantiation for witnesses). -/
def dbBob : HtpasswdDatabase := ⟨[("bob", sha1Bytes (utf8Encode "hunter2"))]⟩

/- Sanity examples (kernel-checked evaluations of the model). -/

example : sha1Bytes (utf8Encode "abc") =
    [169, 153, 62, 54, 71, 6, 129, 106, 186, 62, 37, 113, 120, 80, 194, 108, 156, 208, 216, 157] := by
  decide

example : base64Decode "Ym9iOmh1bnRlcjI=".data = some (utf8Encode "bob:hunter2") := by decide

example : utf8DecodeLossy (utf8Encode "bob:hunter2") = "bob:hunter2".data := by decide

example : splitOnSub htpasswdSep (hline "alice" "aGk=").data = ["alice".data, "aGk=".data] := by
  decide

example : AuthData.from_request (some (utf8Encode "Basic Ym9iOmh1bnRlcjI=")) =
    Except.ok (some ⟨"bob", "hunter2"⟩) := by decide

/- Helper lemmas. -/

/-- Rust `splitn(2, sep)` always yields at least one part. -/
theorem splitn2_ne_nil (sep : Char) (cs : List Char) : splitn2 sep cs ≠ [] := by
  unfold splitn2
  split <;> simp

/-- Processing a concatenation of line blocks: the second block starts
at the index following the first block, and an error in the first block
is final. -/
theorem processLines_append (pre rest : List String) (i : Nat)
    (acc : List (String × List Nat)) :
    processLines i (pre ++ rest) acc =
      match processLines i pre acc with
      | Except.ok st => processLines (i + pre.length) rest st
      | Except.error e => Except.error e := by
  induction pre generalizing i acc with
  | nil => simp [processLines]
  | cons l ls ih =>
    simp only [List.cons_append, processLines]
    cases h : processLine i l acc with
    | error e => rfl
    | ok updated =>
      show processLines (i + 1) (ls ++ rest) updated =
        match processLines (i + 1) ls updated with
        | Except.ok st => processLines (i + (l :: ls).length) rest st
        | Except.error e => Except.error e
      rw [ih]
      have he : i + (l :: ls).length = i + 1 + ls.length := by
        simp only [List.length_cons]
        omega
      rw [he]

/-- If every line before index `pre.length` processes fine and the line
at that index fails, the whole build fails with that line's error. -/
theorem tryFrom_step (pre : List String) (line : String) (post : List String)
    (st : List (String × List Nat)) (e : Error)
    (hpre : processLines 0 pre [] = Except.ok st)
    (hstep : processLine pre.length line st = Except.error e) :
    HtpasswdDatabase.tryFrom (pre ++ line :: post) = Except.error e := by
  unfold HtpasswdDatabase.tryFrom
  rw [processLines_append, hpre]
  simp only [Nat.zero_add, processLines, hstep]

/-- C2: `is_valid` is false for an absent username; for a present
username it is true exactly when the SHA-1 digest of the password bytes
equals the stored digest — so the registered password verifies and any
password hashing to a different digest fails. -/
theorem claim2_is_valid_digest_check :
    (∀ (db : HtpasswdDatabase) (a : AuthData),
       db.registered_users.lookup a.user = none → db.is_valid a = false)
  ∧ (∀ (db : HtpasswdDatabase) (a : AuthData) (digest : List Nat),
       db.registered_users.lookup a.user = some digest →
       (db.is_valid a = true ↔ sha1Bytes (utf8Encode a.password) = digest))
  ∧ (∀ (db : HtpasswdDatabase) (a : AuthData),
       db.registered_users.lookup a.user = some (sha1Bytes (utf8Encode a.password)) →
       db.is_valid a = true)
  ∧ (∀ (db : HtpasswdDatabase) (user correct other : String),
       db.registered_users.lookup user = some (sha1Bytes (utf8Encode correct)) →
       sha1Bytes (utf8Encode other) ≠ sha1Bytes (utf8Encode correct) →
       db.is_valid ⟨user, other⟩ = false) := by
  refine ⟨?_, ?_, ?_, ?_⟩
  · intro db a h
    simp [HtpasswdDatabase.is_valid, h]
  · intro db a digest h
    simp [HtpasswdDatabase.is_valid, h]
  · intro db a h
    simp [HtpasswdDatabase.is_valid, h]
  · intro db user correct other h hne
    simp [HtpasswdDatabase.is_valid, h, hne]

/-- Witness for C2 on a concrete store: the registered password
verifies, an unknown user does not. -/
theorem claim2_witness :
    dbBob.is_valid ⟨"bob", "hunter2"⟩ = true
    ∧ dbBob.is_valid ⟨"carol", "whatever"⟩ = false
    ∧ dbBob.is_valid ⟨"bob", "wrong"⟩ = false :=
  ⟨(claim2_is_valid_digest_check.2.1 dbBob ⟨"bob", "hunter2"⟩
      (sha1Bytes (utf8Encode "hunter2")) rfl).mpr rfl,
   claim2_is_valid_digest_check.1 dbBob ⟨"carol", "whatever"⟩ rfl,
   claim2_is_valid_digest_check.2.2.2 dbBob "bob" "hunter2" "wrong" rfl (by decide)⟩

/-- C6: `Anyone` admits every result, `AnyLoggedUser` admits exactly the
logged users; an absent header resolves through `Anonymous`, allowed
under `Anyone` and forbidden under `AnyLoggedUser`. -/
theorem claim6_policies :
    (∀ r : AuthResult, Anyone.allows r = true)
  ∧ (∀ r : AuthResult, (AnyLoggedUser.allows r = true ↔ ∃ u, r = AuthResult.LoggedUser u))
  ∧ (∀ db : HtpasswdDatabase,
       AuthControl.from_request Anyone.allows db none = GateOutcome.allowed AuthResult.Anonymous)
  ∧ (∀ db : HtpasswdDatabase,
       AuthControl.from_request AnyLoggedUser.allows db none = GateOutcome.forbidden) := by
  refine ⟨fun _ => rfl, fun r => ?_, fun _ => rfl, fun _ => rfl⟩
  cases r with
  | Anonymous => simp [AnyLoggedUser.allows]
  | LoggedUser u => simp [AnyLoggedUser.allows]

/-- C8: no header is the non-error "no credentials" path (and the gate
then evaluates the policy on `Anonymous`); a header shorter than 7 bytes
fails with `HeaderNotLongEnough`; a long-enough header that is not text
fails with `CannotConvertHeaderToString`. -/
theorem claim8_header_presence_and_shape :
    (AuthData.from_request none = Except.ok none)
  ∧ (∀ bytes : List Nat, bytes.length < 7 →
       AuthData.from_request (some bytes) = Except.error Error.HeaderNotLongEnough)
  ∧ (∀ bytes : List Nat, ¬ bytes.length < 7 → headerToStr bytes = none →
       AuthData.from_request (some bytes) = Except.error Error.CannotConvertHeaderToString)
  ∧ (∀ (allows : AuthResult → Bool) (db : HtpasswdDatabase),
       AuthControl.from_request allows db none =
         if allows AuthResult.Anonymous then GateOutcome.allowed AuthResult.Anonymous
         else GateOutcome.forbidden) := by
  refine ⟨rfl, ?_, ?_, fun _ _ => rfl⟩
  · intro bytes h
    simp [AuthData.from_request, h]
  · intro bytes h hstr
    simp [AuthData.from_request, h, hstr]

/-- Witness for C8: `"Basic"` alone is 5 bytes, too short; eight bytes
of value 200 are not visible ASCII. -/
theorem claim8_witness :
    AuthData.from_request (some (utf8Encode "Basic")) = Except.error Error.HeaderNotLongEnough
    ∧ AuthData.from_request (some (List.replicate 8 200)) =
        Except.error Error.CannotConvertHeaderToString :=
  ⟨claim8_header_presence_and_shape.2.1 (utf8Encode "Basic") (by decide),
   claim8_header_presence_and_shape.2.2.1 (List.replicate 8 200) (by decide) (by decide)⟩

/-- C9: the branch returning `CannotExtractUsername` is unreachable:
`splitn(2, ':')` always yields a first segment. -/
theorem claim9_cannot_extract_username_unreachable :
    ∀ header : Option (List Nat),
      AuthData.from_request header ≠ Except.error Error.CannotExtractUsername := by
  intro header h
  cases header with
  | none => simp [AuthData.from_request] at h
  | some bytes =>
    unfold AuthData.from_request at h
    repeat' split at h
    all_goals
      first
        | exact splitn2_ne_nil _ _ (by assumption)
        | simp_all

/-- C4 (amended): `MissingScheme` is never returned — `splitn(2, ' ')`
always yields a first token, which for a space-free header is the whole
text; and any present header of byte length at least 7 that converts to
text and whose first space-delimited token is not exactly `"Basic"` fails
with `UnsupportedScheme` carrying that token. -/
theorem claim4_scheme_handling :
    (∀ header : Option (List Nat),
       AuthData.from_request header ≠ Except.error Error.MissingScheme)
  ∧ (∀ (bytes : List Nat) (text scheme : List Char) (rest : List (List Char)),
       ¬ bytes.length < 7 →
       headerToStr bytes = some text →
       splitn2 ' ' text = scheme :: rest →
       scheme ≠ "Basic".data →
       AuthData.from_request (some bytes) =
         Except.error (Error.UnsupportedScheme (String.mk scheme))) := by
  constructor
  · intro header h
    cases header with
    | none => simp [AuthData.from_request] at h
    | some bytes =>
      unfold AuthData.from_request at h
      repeat' split at h
      all_goals
        first
          | exact splitn2_ne_nil _ _ (by assumption)
          | simp_all
  · intro bytes text scheme rest hlen hstr hsp hne
    simp only [AuthData.from_request, if_neg hlen, hstr, hsp]
    simp [hne]

/-- C4 counterexample: the header text `"Basicabc"` contains no space,
yet the parser returns `UnsupportedScheme`, not `MissingScheme`. -/
theorem claim4_counterexample :
    AuthData.from_request (some (utf8Encode "Basicabc")) =
      Except.error (Error.UnsupportedScheme "Basicabc")
    ∧ AuthData.from_request (some (utf8Encode "Basicabc")) ≠
        Except.error Error.MissingScheme := by
  constructor <;> decide

/-- Witness for C4: a `"Digest abc"` header is rejected as an unsupported
scheme carrying the token `"Digest"`, and no input yields `MissingScheme`. -/
theorem claim4_witness :
    AuthData.from_request (some (utf8Encode "Digest abc")) =
      Except.error (Error.UnsupportedScheme "Digest")
    ∧ AuthData.from_request (some (utf8Encode "Digest abc")) ≠
        Except.error Error.MissingScheme :=
  ⟨claim4_scheme_handling.2 (utf8Encode "Digest abc") "Digest abc".data "Digest".data
      ["abc".data] (by decide) (by decide) (by decide) (by decide),
   claim4_scheme_handling.1 (some (utf8Encode "Digest abc"))⟩

/-- C7: an unknown user and a known user with a wrong password are
indistinguishable — `is_valid` is false in both runs, and whenever parsing
succeeded and `is_valid` is false the gate produces the one
`unauthorizedInvalidCredentials` outcome, whatever the reason was. -/
theorem claim7_unauthorized_parity :
    (∀ (db : HtpasswdDatabase) (a : AuthData),
       db.registered_users.lookup a.user = none → db.is_valid a = false)
  ∧ (∀ (db : HtpasswdDatabase) (a : AuthData) (digest : List Nat),
       db.registered_users.lookup a.user = some digest →
       sha1Bytes (utf8Encode a.password) ≠ digest →
       db.is_valid a = false)
  ∧ (∀ (allows : AuthResult → Bool) (db : HtpasswdDatabase)
       (header : Option (List Nat)) (a : AuthData),
       AuthData.from_request header = Except.ok (some a) →
       db.is_valid a = false →
       AuthControl.from_request allows db header = GateOutcome.unauthorizedInvalidCredentials) := by
  refine ⟨?_, ?_, ?_⟩
  · intro db a h
    simp [HtpasswdDatabase.is_valid, h]
  · intro db a digest h hne
    simp [HtpasswdDatabase.is_valid, h, hne]
  · intro allows db header a hparse hvalid
    simp [AuthControl.from_request, hparse, hvalid]

/-- Witness for C7 on the concrete store: unknown user `carol` and known
user `bob` with a wrong password both fail `is_valid`, and the wrong
password yields the unauthorized outcome through the gate. -/
theorem claim7_witness :
    dbBob.is_valid ⟨"carol", "x"⟩ = false
    ∧ dbBob.is_valid ⟨"bob", "wrongpass"⟩ = false
    ∧ AuthControl.from_request Anyone.allows dbBob
        (some (utf8Encode "Basic Ym9iOndyb25ncGFzcw==")) =
        GateOutcome.unauthorizedInvalidCredentials :=
  ⟨claim7_unauthorized_parity.1 dbBob ⟨"carol", "x"⟩ rfl,
   claim7_unauthorized_parity.2.1 dbBob ⟨"bob", "wrongpass"⟩
     (sha1Bytes (utf8Encode "hunter2")) rfl (by decide),
   claim7_unauthorized_parity.2.2 Anyone.allows dbBob
     (some (utf8Encode "Basic Ym9iOndyb25ncGFzcw==")) ⟨"bob", "wrongpass"⟩
     (by decide) (by decide)⟩

/-- C1: against any store registering `bob` with the SHA-1 digest of
`hunter2`, the gate under `AnyLoggedUser` admits the
`Basic base64("bob:hunter2")` header as `LoggedUser "bob"`, and rejects
`Basic base64("bob:wrongpass")` as unauthorized, not forbidden. -/
theorem claim1_bob_gate (db : HtpasswdDatabase)
    (hbob : db.registered_users.lookup "bob" = some (sha1Bytes (utf8Encode "hunter2"))) :
    AuthControl.from_request AnyLoggedUser.allows db
        (some (utf8Encode "Basic Ym9iOmh1bnRlcjI=")) =
      GateOutcome.allowed (AuthResult.LoggedUser "bob")
    ∧ AuthControl.from_request AnyLoggedUser.allows db
        (some (utf8Encode "Basic Ym9iOndyb25ncGFzcw==")) =
      GateOutcome.unauthorizedInvalidCredentials
    ∧ AuthControl.from_request AnyLoggedUser.allows db
        (some (utf8Encode "Basic Ym9iOndyb25ncGFzcw==")) ≠
      GateOutcome.forbidden := by
  have hparse1 : AuthData.from_request (some (utf8Encode "Basic Ym9iOmh1bnRlcjI=")) =
      Except.ok (some ⟨"bob", "hunter2"⟩) := by decide
  have hparse2 : AuthData.from_request (some (utf8Encode "Basic Ym9iOndyb25ncGFzcw==")) =
      Except.ok (some ⟨"bob", "wrongpass"⟩) := by decide
  have hwrong : sha1Bytes (utf8Encode "wrongpass") ≠ sha1Bytes (utf8Encode "hunter2") := by decide
  have h2 : AuthControl.from_request AnyLoggedUser.allows db
      (some (utf8Encode "Basic Ym9iOndyb25ncGFzcw==")) =
      GateOutcome.unauthorizedInvalidCredentials := by
    have hv : db.is_valid ⟨"bob", "wrongpass"⟩ = false := by
      simp [HtpasswdDatabase.is_valid, hbob, hwrong]
    simp [AuthControl.from_request, hparse2, hv]
  refine ⟨?_, h2, by rw [h2]; simp⟩
  have hv : db.is_valid ⟨"bob", "hunter2"⟩ = true := by
    simp [HtpasswdDatabase.is_valid, hbob]
  simp [AuthControl.from_request, hparse1, hv, AnyLoggedUser.allows]

/-- Witness for C1 at the concrete one-user store. -/
theorem claim1_witness :
    AuthControl.from_request AnyLoggedUser.allows dbBob
        (some (utf8Encode "Basic Ym9iOmh1bnRlcjI=")) =
      GateOutcome.allowed (AuthResult.LoggedUser "bob")
    ∧ AuthControl.from_request AnyLoggedUser.allows dbBob
        (some (utf8Encode "Basic Ym9iOndyb25ncGFzcw==")) =
      GateOutcome.unauthorizedInvalidCredentials
    ∧ AuthControl.from_request AnyLoggedUser.allows dbBob
        (some (utf8Encode "Basic Ym9iOndyb25ncGFzcw==")) ≠
      GateOutcome.forbidden :=
  claim1_bob_gate dbBob rfl

/-- C3: building from lines fails at the first failing line with no store:
a line not splitting into exactly two parts on the scheme marker gives
`MalformedHtpasswdLine` at its 0-based index over the original input; an
invalid base64 digest gives `InvalidPasswordString` at that index; an
already-registered username gives `DuplicateUser` with that username; and
the programmatic `add` rejects a duplicate username the same way. -/
theorem claim3_build_errors :
    (∀ (pre : List String) (line : String) (post : List String)
       (st : List (String × List Nat)),
       processLines 0 pre [] = Except.ok st →
       (rustTrim line.data).isEmpty = false →
       (splitOnSub htpasswdSep (rustTrim line.data)).length ≠ 2 →
       HtpasswdDatabase.tryFrom (pre ++ line :: post) =
         Except.error (Error.MalformedHtpasswdLine pre.length))
  ∧ (∀ (pre : List String) (line : String) (post : List String)
       (st : List (String × List Nat)) (user pwd : List Char),
       processLines 0 pre [] = Except.ok st →
       (rustTrim line.data).isEmpty = false →
       splitOnSub htpasswdSep (rustTrim line.data) = [user, pwd] →
       base64Decode pwd = none →
       HtpasswdDatabase.tryFrom (pre ++ line :: post) =
         Except.error (Error.InvalidPasswordString pre.length))
  ∧ (∀ (pre : List String) (line : String) (post : List String)
       (st : List (String × List Nat)) (user pwd : List Char) (bytes : List Nat),
       processLines 0 pre [] = Except.ok st →
       (rustTrim line.data).isEmpty = false →
       splitOnSub htpasswdSep (rustTrim line.data) = [user, pwd] →
       base64Decode pwd = some bytes →
       (st.lookup (String.mk user)).isSome = true →
       HtpasswdDatabase.tryFrom (pre ++ line :: post) =
         Except.error (Error.DuplicateUser (String.mk user)))
  ∧ (∀ (db : HtpasswdDatabase) (user : String) (pwd : List Nat),
       (db.registered_users.lookup user).isSome = true →
       db.add user pwd = Except.error (Error.DuplicateUser user)) := by
  refine ⟨?_, ?_, ?_, ?_⟩
  · intro pre line post st hpre htrim hlen2
    refine tryFrom_step pre line post st _ hpre ?_
    unfold processLine
    rw [if_neg (by simp [htrim])]
    cases hps : splitOnSub htpasswdSep (rustTrim line.data) with
    | nil => rfl
    | cons u t =>
      cases t with
      | nil => rfl
      | cons p t2 =>
        cases t2 with
        | nil =>
          rw [hps] at hlen2
          simp at hlen2
        | cons q t3 => rfl
  · intro pre line post st user pwd hpre htrim hsplit hdec
    refine tryFrom_step pre line post st _ hpre ?_
    simp [processLine, htrim, hsplit, hdec]
  · intro pre line post st user pwd bytes hpre htrim hsplit hdec hdup
    refine tryFrom_step pre line post st _ hpre ?_
    simp [processLine, htrim, hsplit, hdec, hdup]
  · intro db user pwd h
    simp [HtpasswdDatabase.add, h]

/-- Witness for C3: the two-line prefix (a valid line, then a blank line)
is processed fine, and each failing third line (index 2 over the original
input) produces its error; `add` on a present username is rejected. -/
theorem claim3_witness :
    HtpasswdDatabase.tryFrom [hline "alice" "aGk=", "", "bad line"] =
      Except.error (Error.MalformedHtpasswdLine 2)
    ∧ HtpasswdDatabase.tryFrom [hline "alice" "aGk=", "", hline "bob" "$$$", "later"] =
      Except.error (Error.InvalidPasswordString 2)
    ∧ HtpasswdDatabase.tryFrom [hline "alice" "aGk=", "", hline "alice" "aGs="] =
      Except.error (Error.DuplicateUser "alice")
    ∧ HtpasswdDatabase.add ⟨[("alice", [104, 105])]⟩ "alice" [1, 2] =
      Except.error (Error.DuplicateUser "alice") :=
  ⟨claim3_build_errors.1 [hline "alice" "aGk=", ""] "bad line" [] [("alice", [104, 105])]
     (by decide) (by decide) (by decide),
   claim3_build_errors.2.1 [hline "alice" "aGk=", ""] (hline "bob" "$$$") ["later"]
     [("alice", [104, 105])] "bob".data "$$$".data (by decide) (by decide) (by decide) (by decide),
   claim3_build_errors.2.2.1 [hline "alice" "aGk=", ""] (hline "alice" "aGs=") []
     [("alice", [104, 105])] "alice".data "aGs=".data [104, 107]
     (by decide) (by decide) (by decide) (by decide) (by decide),
   claim3_build_errors.2.2.2 ⟨[("alice", [104, 105])]⟩ "alice" [1, 2] (by decide)⟩

/-- C5: once a header has been decoded to a credential payload, a payload
text with no colon fails with `CannotExtractPassword` and a payload text
whose first colon is final fails with `EmptyPassword`; in both cases the
gate reports the parse error identically for every store, so `is_valid`
is never consulted. -/
theorem claim5_password_extraction (bytes payload : List Nat) (text encoded d : List Char)
    (hlen : ¬ bytes.length < 7)
    (hstr : headerToStr bytes = some text)
    (hsp : splitn2 ' ' text = ["Basic".data, encoded])
    (hdec : base64Decode encoded = some payload)
    (hd : utf8DecodeLossy payload = d) :
    (splitFirst ':' d = none →
       AuthData.from_request (some bytes) = Except.error Error.CannotExtractPassword
       ∧ ∀ (allows : AuthResult → Bool) (db : HtpasswdDatabase),
           AuthControl.from_request allows db (some bytes) =
             GateOutcome.unauthorizedMalformedHeader Error.CannotExtractPassword)
  ∧ (∀ u : List Char, splitFirst ':' d = some (u, []) →
       AuthData.from_request (some bytes) = Except.error Error.EmptyPassword
       ∧ ∀ (allows : AuthResult → Bool) (db : HtpasswdDatabase),
           AuthControl.from_request allows db (some bytes) =
             GateOutcome.unauthorizedMalformedHeader Error.EmptyPassword) := by
  constructor
  · intro hnc
    have hp : AuthData.from_request (some bytes) = Except.error Error.CannotExtractPassword := by
      simp only [AuthData.from_request, if_neg hlen, hstr, hsp, hdec, hd]
      simp [splitn2, hnc]
    exact ⟨hp, fun allows db => by simp [AuthControl.from_request, hp]⟩
  · intro u hu
    have hp : AuthData.from_request (some bytes) = Except.error Error.EmptyPassword := by
      simp only [AuthData.from_request, if_neg hlen, hstr, hsp, hdec, hd]
      simp [splitn2, hu]
    exact ⟨hp, fun allows db => by simp [AuthControl.from_request, hp]⟩

/-- Witness for C5: `Basic base64("bob")` has no colon,
`Basic base64("bob:")` has a colon followed by nothing. -/
theorem claim5_witness :
    AuthData.from_request (some (utf8Encode "Basic Ym9i")) =
      Except.error Error.CannotExtractPassword
    ∧ AuthData.from_request (some (utf8Encode "Basic Ym9iOg==")) =
      Except.error Error.EmptyPassword :=
  ⟨((claim5_password_extraction (utf8Encode "Basic Ym9i") (utf8Encode "bob")
      "Basic Ym9i".data "Ym9i".data "bob".data (by decide) (by decide) (by decide)
      (by decide) (by decide)).1 (by decide)).1,
   ((claim5_password_extraction (utf8Encode "Basic Ym9iOg==") (utf8Encode "bob:")
      "Basic Ym9iOg==".data "Ym9iOg==".data "bob:".data (by decide) (by decide) (by decide)
      (by decide) (by decide)).2 "bob".data (by decide)).1⟩

/-- C10: a payload of the form `":" ++ p` with non-empty `p` parses as
the credential pair `("", p)` — the empty username is accepted — and the
gate then consults the store, rejecting as unauthorized when no user with
the empty-string name is registered. -/
theorem claim10_empty_username (bytes payload : List Nat) (text encoded p : List Char)
    (hlen : ¬ bytes.length < 7)
    (hstr : headerToStr bytes = some text)
    (hsp : splitn2 ' ' text = ["Basic".data, encoded])
    (hdec : base64Decode encoded = some payload)
    (hd : utf8DecodeLossy payload = ':' :: p)
    (hp : p ≠ []) :
    AuthData.from_request (some bytes) = Except.ok (some ⟨"", String.mk p⟩)
    ∧ (∀ (allows : AuthResult → Bool) (db : HtpasswdDatabase),
        db.registered_users.lookup "" = none →
        AuthControl.from_request allows db (some bytes) =
          GateOutcome.unauthorizedInvalidCredentials) := by
  have hparse : AuthData.from_request (some bytes) = Except.ok (some ⟨"", String.mk p⟩) := by
    simp only [AuthData.from_request, if_neg hlen, hstr, hsp, hdec, hd]
    cases p with
    | nil => exact absurd rfl hp
    | cons x xs => simp [splitn2, splitFirst]
  refine ⟨hparse, fun allows db hdb => ?_⟩
  have hv : db.is_valid ⟨"", String.mk p⟩ = false := by
    simp [HtpasswdDatabase.is_valid, hdb]
  simp [AuthControl.from_request, hparse, hv]

/-- Witness for C10: `Basic base64(":p")` logs in as the empty username
with password `p`, and is unauthorized against the empty store. -/
theorem claim10_witness :
    AuthData.from_request (some (utf8Encode "Basic OnA=")) = Except.ok (some ⟨"", "p"⟩)
    ∧ AuthControl.from_request Anyone.allows HtpasswdDatabase.new
        (some (utf8Encode "Basic OnA=")) = GateOutcome.unauthorizedInvalidCredentials :=
  ⟨(claim10_empty_username (utf8Encode "Basic OnA=") (utf8Encode ":p") "Basic OnA=".data
      "OnA=".data "p".data (by decide) (by decide) (by decide) (by decide) (by decide)
      (by decide)).1,
   (claim10_empty_username (utf8Encode "Basic OnA=") (utf8Encode ":p") "Basic OnA=".data
      "OnA=".data "p".data (by decide) (by decide) (by decide) (by decide) (by decide)
      (by decide)).2 Anyone.allows HtpasswdDatabase.new rfl⟩
